import Mathlib

/-!
Verification of the OpenSubtitles client (`osdbinfos/osdbinfos.py`).

The development shallowly embeds the pure core of the client:
the movie-hash fingerprint (`get_hash`), the reply parser
(`_parse_dict`, modelled as `parse_dict`), the lookup and insert
operations (`get_infos`, `get_files_infos`, `insert_movie_hash`),
the status-to-error table (`ERROR_STATUS_EXCEPTIONS`), and the
session expiry predicate (`is_token_expired`).

External effects are made explicit parameters:
the filesystem is a byte list (or, for `get_files_infos`, a
path-to-fingerprint function standing for `self.get_hash`), and the
single XML-RPC round trip is a `RemoteResult` value describing the
reply or the transport failure.  Python dictionaries are association
lists with unique keys inserted in order (`pyDictInsert`), Python
`None` inside parsed records is `RVal.rnone`, and Python exceptions
are `Except` errors.
-/

set_option maxRecDepth 10000

/-- Decidable equality for `Except`, used to evaluate the model on
concrete inputs. -/
instance {ε α : Type} [DecidableEq ε] [DecidableEq α] : DecidableEq (Except ε α)
  | .error a, .error b => decidable_of_iff (a = b) (by simp)
  | .error _, .ok _ => isFalse (by intro h; cases h)
  | .ok _, .error _ => isFalse (by intro h; cases h)
  | .ok a, .ok b => decidable_of_iff (a = b) (by simp)

/-! ## Python-style primitives -/

/-- Lookup in an association list modelling a Python dict (`d[k]` / `d.get(k)`):
first binding wins; dicts built with `pyDictInsert` have unique keys. -/
def assocGet {α β : Type} [DecidableEq α] : List (α × β) → α → Option β
  | [], _ => none
  | (k, v) :: rest, k2 => if k = k2 then some v else assocGet rest k2

/-- Python dict assignment `d[k] = v`: replace the value in place if the key
exists, otherwise append the new binding (insertion order preserved). -/
def pyDictInsert {α β : Type} [DecidableEq α] (d : List (α × β)) (k : α) (v : β) :
    List (α × β) :=
  if (assocGet d k).isSome then d.map (fun kv => if kv.1 = k then (k, v) else kv)
  else d ++ [(k, v)]

/-- `leadsWith p l` holds when `p` is an initial segment of `l`
(Python `str.startswith` on character lists). -/
def leadsWith : List Char → List Char → Bool
  | [], _ => true
  | _ :: _, [] => false
  | p :: ps, c :: cs => p = c && leadsWith ps cs

/-- Substring test on character lists, used for Python `pat in s`. -/
def containsSub (pat : List Char) : List Char → Bool
  | [] => leadsWith pat []
  | c :: cs => leadsWith pat (c :: cs) || containsSub pat cs

/-- Python `pat in s` for strings. -/
def pyInStr (pat s : String) : Bool := containsSub pat.data s.data

/-- Helper for `pySplitChar`: accumulates the current fragment. -/
def splitCharAux (sep : Char) : List Char → List Char → List (List Char)
  | [], acc => [acc.reverse]
  | c :: cs, acc =>
    if c = sep then acc.reverse :: splitCharAux sep cs []
    else splitCharAux sep cs (c :: acc)

/-- Python `s.split(sep)` for a one-character separator: keeps empty parts,
always returns at least one part. -/
def pySplitChar (s : String) (sep : Char) : List String :=
  (splitCharAux sep s.data []).map String.mk

/-- The characters Python `str.strip()` removes by default. -/
def isPySpace (c : Char) : Bool :=
  c = ' ' || c = '\t' || c = '\n' || c = '\r' || c = '\x0b' || c = '\x0c'

/-- Python `s.strip()`: drop whitespace from both ends. -/
def pyStrip (s : String) : String :=
  String.mk (((s.data.dropWhile isPySpace).reverse.dropWhile isPySpace).reverse)

/-- Left-to-right, non-overlapping removal of the two-character pattern `tt`
(Python `s.replace('tt', '')` on character lists). -/
def removeTT : List Char → List Char
  | 't' :: 't' :: rest => removeTT rest
  | c :: rest => c :: removeTT rest
  | [] => []

/-- `imdbid.replace('tt', '')` from `insert_movie_hash`. -/
def strip_tt (s : String) : String := String.mk (removeTT s.data)

/-- Helper for `pyInt`: value of a nonempty all-digit run, `none` otherwise. -/
def digitsValAux : List Char → Nat → Option Nat
  | [], acc => some acc
  | c :: cs, acc =>
    if c.isDigit then digitsValAux cs (acc * 10 + (c.toNat - 48)) else none

/-- Python `int(s)` on a string: strip whitespace, optional sign, decimal
digits; `none` models the `ValueError` raised on anything else. -/
def pyInt (s : String) : Option Int :=
  match (pyStrip s).data with
  | [] => none
  | '-' :: ds =>
    if ds.isEmpty then none else (digitsValAux ds 0).map (fun n => -(n : Int))
  | '+' :: ds =>
    if ds.isEmpty then none else (digitsValAux ds 0).map (fun n => (n : Int))
  | ds => (digitsValAux ds 0).map (fun n => (n : Int))

/-- Python `s.rjust(w, c)`: pad on the left up to width `w`. -/
def pyRjust (s : String) (w : Nat) (c : Char) : String :=
  String.mk (List.replicate (w - s.data.length) c ++ s.data)

/-! ## Hash engine (`OpenSutitles.get_hash`) -/

/-- One `struct.unpack('q', f.read(8))` step: eight bytes at offset `off`,
little-endian, interpreted as a signed 64-bit integer. -/
def read_le_word (file : List Nat) (off : Nat) : Int :=
  let u := (List.range 8).foldl (fun a i => a + file.getD (off + i) 0 * 256 ^ i) 0
  if u < 2 ^ 63 then (u : Int) else (u : Int) - 2 ^ 64

/-- `hash & 0xFFFFFFFFFFFFFFFF` after an addition; Python `&` on a possibly
negative int yields the two's-complement residue, i.e. `% 2^64`. -/
def mask64 (a : Int) : Int := a % (2 ^ 64 : Int)

/-- Hex digits of `n`, most significant first (`'%x' % n`, lowercase). -/
def natToHex (n : Nat) : List Char :=
  if _h : n < 16 then [Nat.digitChar n]
  else natToHex (n / 16) ++ [Nat.digitChar (n % 16)]
termination_by n
decreasing_by exact Nat.div_lt_self (by omega) (by omega)

/-- `"%016x" % n`: lowercase hex, left-padded with zeros to at least 16. -/
def pad016x (n : Nat) : String :=
  String.mk (List.replicate (16 - (natToHex n).length) '0' ++ natToHex n)

/-- A lowercase hexadecimal digit. -/
def is_hex_lower (c : Char) : Bool := "0123456789abcdef".data.contains c

/-- `OpenSutitles.get_hash` over the file's bytes: `None` for files smaller
than two 64 KiB windows, otherwise the size-seeded, 64-bit-masked sum of the
8192 leading and 8192 trailing eight-byte words, rendered as `%016x`. -/
def get_hash (file : List Nat) : Option String :=
  let filesize := file.length
  if filesize < 65536 * 2 then none
  else
    let h1 := (List.range 8192).foldl
      (fun a i => mask64 (a + read_le_word file (8 * i))) (filesize : Int)
    let h2 := (List.range 8192).foldl
      (fun a i => mask64 (a + read_le_word file (max 0 (filesize - 65536) + 8 * i))) h1
    some (pad016x h2.toNat)

/-! ## Reply records (`OpenSutitles._parse_dict`) -/

/-- A value stored in a parsed result dict: Python `None`, a string, or
an integer (after `int(...)` coercion succeeded). -/
inductive RVal where
  | rnone
  | rstr (s : String)
  | rint (n : Int)
deriving DecidableEq

/-- One reply entry: a Python dict of string fields
(e.g. `MovieHash`, `MovieKind`, `MovieName`, `SeriesSeason`). -/
abbrev Entry := List (String × String)

/-- A parsed per-fingerprint record (`result` in `_parse_dict`). -/
abbrev ResultDict := List (String × RVal)

/-- The raw Python exceptions that can escape the parser. -/
inductive PyErr where
  | keyError (k : String)
  | typeError
  | attributeError
  | nameError
deriving DecidableEq

/-- `OpenSutitles.clean_imdbid`: left-pad to 7 digits and prefix `tt`
unless the id already starts with `tt`. -/
def clean_imdbid (imdbid : String) : String :=
  if leadsWith "tt".data imdbid.data then imdbid
  else "tt" ++ pyRjust imdbid 7 '0'

/-- `datas.get(field, None)` turned into an `RVal`. -/
def optRVal : Option String → RVal
  | some s => .rstr s
  | none => .rnone

/-- The season/episode-number coercion: `int(...)` with `TypeError`
(missing value stays `None`) and `ValueError` (non-numeric value stays
the raw string) both swallowed. -/
def numField : Option String → RVal
  | none => .rnone
  | some s =>
    match pyInt s with
    | some n => .rint n
    | none => .rstr s

/-- The per-entry body of `_parse_dict`: builds `result` for one
fingerprint key `h` and entry `e`; an empty entry yields the
fingerprint-only record; an `episode` entry without `MovieName`
raises `KeyError`. -/
def parse_entry (h : String) (e : Entry) : Except PyErr ResultDict :=
  if e.length = 0 then .ok [("movie_hash", .rstr h)]
  else
    let r := pyDictInsert [] "movie_hash" (optRVal (assocGet e "MovieHash"))
    let r := match assocGet e "MovieImdbID" with
      | some v => pyDictInsert r "imdb_id" (.rstr (clean_imdbid v))
      | none => r
    let kind := assocGet e "MovieKind"
    let r := pyDictInsert r "kind" (optRVal kind)
    if kind = some "movie" then
      let r := pyDictInsert r "movie_name" (optRVal (assocGet e "MovieName"))
      let r := pyDictInsert r "movie_year" (optRVal (assocGet e "MovieYear"))
      .ok r
    else if kind = some "episode" then
      match assocGet e "MovieName" with
      | none => .error (.keyError "MovieName")
      | some title =>
        let parts := pySplitChar title '\"'
        let r := match parts.get? 1 with
          | some p1 =>
            let r := pyDictInsert r "serie_title" (.rstr (pyStrip p1))
            match parts.get? 2 with
            | some p2 => pyDictInsert r "episode_title" (.rstr (pyStrip p2))
            | none => r
          | none => r
        let r := pyDictInsert r "season_number" (numField (assocGet e "SeriesSeason"))
        let r := pyDictInsert r "episode_number" (numField (assocGet e "SeriesEpisode"))
        .ok r
    else .ok r

/-- What the loop variable `datas` can hold after the rebinding
`datas = datas[_hash]`: a reply entry, or a plain string scalar when a
fingerprint key is looked up inside an entry. -/
inductive PyCell where
  | ent (e : Entry)
  | scalar (s : String)
deriving DecidableEq

/-- The loop variable `datas` of `_parse_dict`: the whole reply mapping on
the first iteration, then whatever the previous iteration rebound it to. -/
inductive DVar where
  | top (d : List (String × Entry))
  | cell (c : PyCell)
deriving DecidableEq

/-- `datas[_hash]` on the current value of the shadowed variable:
indexing the reply dict yields an entry, indexing an entry yields its
string field or `KeyError`, and indexing a string raises `TypeError`. -/
def dvar_subscript : DVar → String → Except PyErr PyCell
  | .top d, k =>
    match assocGet d k with
    | some e => .ok (.ent e)
    | none => .error (.keyError k)
  | .cell (.ent e), k =>
    match assocGet e k with
    | some s => .ok (.scalar s)
    | none => .error (.keyError k)
  | .cell (.scalar _), _ => .error .typeError

/-- Processing the rebound `datas` for one key: entries go through
`parse_entry`; a string scalar hits `len(datas) > 0` and then
`datas.get(...)`, raising `AttributeError` unless it is empty. -/
def parse_cell (h : String) : PyCell → Except PyErr ResultDict
  | .ent e => parse_entry h e
  | .scalar s =>
    if s.data.isEmpty then .ok [("movie_hash", .rstr h)]
    else .error .attributeError

/-- The `for _hash in datas` loop of `_parse_dict`.  The iteration keys are
fixed when the loop starts, but the variable `datas` is rebound by
`datas = datas[_hash]` on every iteration, which is the faithfully
modelled shadowing slip. -/
def parse_dict_loop : List String → DVar → Except PyErr (List ResultDict)
  | [], _ => .ok []
  | h :: rest, dv =>
    match dvar_subscript dv h with
    | .error e => .error e
    | .ok c =>
      match parse_cell h c with
      | .error e => .error e
      | .ok r => (parse_dict_loop rest (.cell c)).map (fun rs => r :: rs)

/-- The flattening key `v['movie_hash']`: a string or Python `None`. -/
def record_key (r : ResultDict) : Option String :=
  match assocGet r "movie_hash" with
  | some (.rstr s) => some s
  | _ => none

/-- `ret = {v['movie_hash']: v for v in ret}`. -/
def flatten (rs : List ResultDict) : List (Option String × ResultDict) :=
  rs.foldl (fun d r => pyDictInsert d (record_key r) r) []

/-- `OpenSutitles._parse_dict` (the trailing `store_state()` side effect is
session persistence and is not part of the returned value). -/
def parse_dict (d : List (String × Entry)) :
    Except PyErr (List (Option String × ResultDict)) :=
  (parse_dict_loop (d.map Prod.fst) (.top d)).map flatten

/-! ## Client (`OpenSutitles.get_infos` / `get_files_infos`) -/

/-- An element of a list-shaped reply data section: a dict, or something
else (discarded by the `isinstance(x, dict)` filter). -/
inductive PyItem where
  | obj (e : Entry)
  | nonObj
deriving DecidableEq

/-- The `data` field of a reply: the normal fingerprint-keyed mapping, the
server-quirk list of per-item objects, or anything else. -/
inductive ReplyData where
  | ddict (d : List (String × Entry))
  | dlist (l : List PyItem)
  | dother
deriving DecidableEq

/-- Outcome of the single remote round trip (`CheckMovieHash` or
`InsertMovieHash`): a structured reply, or one of the transport failures
the call site catches. -/
inductive RemoteResult where
  | reply (status : String) (data : ReplyData)
  | sockTimeout
  | protocolError (code : Nat)
  | sockError (msg : String)
  | otherError (msg : String)
deriving DecidableEq

/-- The module's typed exceptions (one constructor per exception class). -/
inductive OsdbError where
  | timeoutErr
  | serviceUnavailable
  | genericErr (msg : String)
  | networkErr (msg : String)
  | unauthorized (msg : String)
  | mandatoryParameterMissing (msg : String)
  | noSession (msg : String)
  | downloadLimitReached (msg : String)
  | invalidParameters (msg : String)
  | methodNotFound (msg : String)
  | unknownErr (msg : String)
  | invalidUserAgent (msg : String)
  | disabledUserAgent (msg : String)
  | invalidParam (msg : String)
  | pyErr (e : PyErr)
deriving DecidableEq

/-- The fixed `ERROR_STATUS_EXCEPTIONS` table, keyed by status code. -/
def ERROR_STATUS_EXCEPTIONS (code : String) : Option (String → OsdbError) :=
  if code = "401" then some .unauthorized
  else if code = "405" then some .mandatoryParameterMissing
  else if code = "406" then some .noSession
  else if code = "407" then some .downloadLimitReached
  else if code = "408" then some .invalidParameters
  else if code = "409" then some .methodNotFound
  else if code = "410" then some .unknownErr
  else if code = "411" then some .invalidUserAgent
  else if code = "415" then some .disabledUserAgent
  else none

/-- The non-`200 OK`, nonempty-status branch of `get_infos`: look the first
token of the status line up in the table, else a generic
`OpenSutitlesError` carrying the raw status. -/
def status_error (status : String) : OsdbError :=
  match ERROR_STATUS_EXCEPTIONS ((pySplitChar status ' ').headD "") with
  | some f => f status
  | none => .genericErr status

/-- What `get_infos` hands back to its caller on a non-raising path:
a parsed mapping, or (the `return` slip) the un-raised
`InvalidResultOpenSutitlesError` instance itself. -/
inductive GetInfosRet where
  | mapping (m : List (Option String × ResultDict))
  | errObject (msg : String)
deriving DecidableEq

/-- `{x['MovieHash']: x for x in datas if isinstance(x, dict)}`:
re-key a list-shaped data section, raising `KeyError` when a dict item
lacks `MovieHash`. -/
def rekey_list : List PyItem → Except PyErr (List (String × Entry))
  | [] => .ok []
  | .nonObj :: rest => rekey_list rest
  | .obj e :: rest =>
    match assocGet e "MovieHash" with
    | none => .error (.keyError "MovieHash")
    | some k => (rekey_list rest).map (fun d => pyDictInsert d k e)

/-- `OpenSutitles.get_infos`.  The first component records whether the
remote interaction (login plus `CheckMovieHash`) was started; the session
bookkeeping (`register`, `last_query_time`, `store_state`) is modelled
separately by `SessionSt`.  Empty or all-`None` hash lists return the
empty dict without calling the server. -/
def get_infos (movie_hash : List (Option String)) (remote : RemoteResult) :
    Bool × Except OsdbError GetInfosRet :=
  if movie_hash.length = 0 then (false, .ok (.mapping []))
  else if (movie_hash.filterMap id).length = 0 then (false, .ok (.mapping []))
  else
    match remote with
    | .sockTimeout => (true, .error .timeoutErr)
    | .protocolError c =>
      (true, .error (if c = 503 then .serviceUnavailable else .genericErr "ProtocolError"))
    | .sockError m => (true, .error (.networkErr m))
    | .otherError m => (true, .error (.genericErr m))
    | .reply status data =>
      (true,
        if status = "200 OK" then
          match data with
          | .ddict d =>
            match parse_dict d with
            | .ok m => .ok (.mapping m)
            | .error e => .error (.pyErr e)
          | .dlist l =>
            match rekey_list l with
            | .error e => .error (.pyErr e)
            | .ok d =>
              match parse_dict d with
              | .ok m => .ok (.mapping m)
              | .error e => .error (.pyErr e)
          | .dother => .ok (.errObject "InvalidResultOpenSutitlesError")
        else if status = "" then .error (.pyErr .nameError)
        else .error (status_error status))

/-- `OpenSutitles.get_files_infos`.  `hashFn` stands for `self.get_hash`
over the filesystem (`none` = file too small or unreadable).  The result
dict is keyed by `_hashs_files.get(_hash, None)` for each `_hash` in the
reply mapping; iterating the returned exception object of the
`InvalidResult` slip raises `TypeError`. -/
def get_files_infos (hashFn : String → Option String) (files : List String)
    (remote : RemoteResult) :
    Except OsdbError (List (Option String × Option ResultDict)) :=
  let hashs_files : List (Option String × String) :=
    files.foldl (fun d p => pyDictInsert d (hashFn p) p) []
  match (get_infos (hashs_files.map Prod.fst) remote).2 with
  | .error e => .error e
  | .ok (.errObject _) => .error (.pyErr .typeError)
  | .ok (.mapping m) =>
    .ok (if m.length = 0 then []
         else (m.map Prod.fst).foldl
           (fun d k => pyDictInsert d (assocGet hashs_files k) (assocGet m k)) [])

/-! ## Session state (`is_token_expired` / `register`) -/

/-- The session fields of the client: `self.token` and
`self.last_query_time` (a timestamp in seconds). -/
structure SessionSt where
  token : Option String
  last_query_time : Option Nat
deriving DecidableEq

/-- `TOKEN_EXPIRATION = timedelta(minutes=14)`, in seconds. -/
def TOKEN_EXPIRATION : Nat := 14 * 60

/-- `OpenSutitles.is_token_expired`: expired when the token or the last
query time is missing, or 14 minutes have passed since the last query. -/
def is_token_expired (st : SessionSt) (now : Nat) : Bool :=
  match st.token with
  | none => true
  | some _ =>
    match st.last_query_time with
    | none => true
    | some t => if t + TOKEN_EXPIRATION ≤ now then true else false

/-- The state after `__init__` with no prior persisted state. -/
def fresh_session : SessionSt := { token := none, last_query_time := none }

/-- `OpenSutitles.register`: logs in only when the token is expired and,
when the reply carries a token, replaces `self.token`.  It does not touch
`last_query_time`. -/
def register (st : SessionSt) (now : Nat) (login_token : Option String) : SessionSt :=
  if is_token_expired st now then
    match login_token with
    | some tok => { st with token := some tok }
    | none => st
  else st

/-- The `self.last_query_time = datetime.now()` statement that `get_infos`
and `insert_movie_hash` run right after `register`. -/
def set_query_time (st : SessionSt) (t : Nat) : SessionSt :=
  { st with last_query_time := some t }

/-! ## Insert (`OpenSutitles.insert_movie_hash`) -/

/-- One record passed to `insert_movie_hash`: a Python dict of strings. -/
abbrev Record := List (String × String)

/-- The reformat loop of `insert_movie_hash`: mutates each record's
`imdbid` in place (`data['imdbid'] = data['imdbid'].replace('tt', '')`),
stopping with `OpenSutitlesInvalidParam` at the first record without the
key.  Returns the caller-visible records plus the raised error, if any. -/
def reformat_loop : List Record → List Record × Option OsdbError
  | [] => ([], none)
  | d :: rest =>
    match assocGet d "imdbid" with
    | none => (d :: rest, some (.invalidParam "Key imdbid is missing"))
    | some v =>
      (pyDictInsert d "imdbid" (strip_tt v) :: (reformat_loop rest).1,
       (reformat_loop rest).2)

/-- `OpenSutitles.insert_movie_hash`: first component is the caller's list
after the in-place mutation, second whether the remote interaction (login
plus `InsertMovieHash`) was started, third the outcome — note the status
handling checks only `'408' in status` and `status == '200 OK'` and falls
through to an implicit `None` return otherwise. -/
def insert_movie_hash (hashes : List Record) (remote : RemoteResult) :
    List Record × Bool × Except OsdbError (Option ReplyData) :=
  match (reformat_loop hashes).2 with
  | some e => ((reformat_loop hashes).1, false, .error e)
  | none =>
    ((reformat_loop hashes).1, true,
      match remote with
      | .sockTimeout => .error .timeoutErr
      | .protocolError c =>
        .error (if c = 503 then .serviceUnavailable else .genericErr "ProtocolError")
      | .sockError m => .error (.genericErr m)
      | .otherError m => .error (.genericErr m)
      | .reply status data =>
        if pyInStr "408" status then .error (.invalidParam "Invalid parameters")
        else if status = "200 OK" then .ok (some data)
        else .ok none)

/-! ## Helper lemmas -/

lemma assocGet_map_replace {α β : Type} [DecidableEq α] (k0 k : α) (v : β) (h : k ≠ k0) :
    ∀ d : List (α × β),
      assocGet (d.map (fun kv => if kv.1 = k0 then (k0, v) else kv)) k = assocGet d k := by
  intro d
  induction d with
  | nil => rfl
  | cons a rest ih =>
    obtain ⟨a1, a2⟩ := a
    by_cases ha : a1 = k0
    · rw [List.map_cons, if_pos (ha : (a1, a2).1 = k0)]
      simp [assocGet, h.symm, ha, ih]
    · rw [List.map_cons, if_neg (ha : ¬(a1, a2).1 = k0)]
      by_cases hak : a1 = k <;> simp [assocGet, hak, ih]

lemma assocGet_append_single {α β : Type} [DecidableEq α] (k0 k : α) (v : β) (h : k ≠ k0) :
    ∀ d : List (α × β), assocGet (d ++ [(k0, v)]) k = assocGet d k := by
  intro d
  induction d with
  | nil => simp [assocGet, h.symm]
  | cons a rest ih =>
    obtain ⟨a1, a2⟩ := a
    by_cases hak : a1 = k <;> simp [assocGet, hak, ih]

lemma assocGet_pyDictInsert_ne {α β : Type} [DecidableEq α] (d : List (α × β)) (k0 k : α)
    (v : β) (h : k ≠ k0) : assocGet (pyDictInsert d k0 v) k = assocGet d k := by
  unfold pyDictInsert
  by_cases hc : (assocGet d k0).isSome
  · rw [if_pos hc]
    exact assocGet_map_replace k0 k v h d
  · rw [if_neg hc]
    exact assocGet_append_single k0 k v h d

lemma reformat_loop_error_of_missing :
    ∀ hashes : List Record, (∃ d ∈ hashes, assocGet d "imdbid" = none) →
      (reformat_loop hashes).2 = some (.invalidParam "Key imdbid is missing") := by
  intro hashes
  induction hashes with
  | nil => rintro ⟨d, hd, _⟩; cases hd
  | cons d rest ih =>
    rintro ⟨d2, hd2, hget⟩
    cases hmem : assocGet d "imdbid" with
    | none => simp [reformat_loop, hmem]
    | some v =>
      simp only [reformat_loop, hmem]
      rcases List.mem_cons.mp hd2 with h | h
      · subst h
        rw [hmem] at hget
        cases hget
      · exact ih ⟨d2, h, hget⟩

lemma reformat_loop_all_present :
    ∀ hashes : List Record, (∀ d ∈ hashes, (assocGet d "imdbid").isSome = true) →
      reformat_loop hashes
        = (hashes.map (fun d => pyDictInsert d "imdbid"
            (strip_tt ((assocGet d "imdbid").getD ""))), none) := by
  intro hashes
  induction hashes with
  | nil => intro _; rfl
  | cons d rest ih =>
    intro h
    have hd := h d (List.mem_cons_self d rest)
    obtain ⟨v, hv⟩ := Option.isSome_iff_exists.mp hd
    have hrest := ih (fun d2 hd2 => h d2 (List.mem_cons_of_mem d hd2))
    simp [reformat_loop, hv, hrest]

lemma insert_movie_hash_fst (hashes : List Record) (remote : RemoteResult) :
    (insert_movie_hash hashes remote).1 = (reformat_loop hashes).1 := by
  unfold insert_movie_hash
  cases (reformat_loop hashes).2 <;> rfl

/-! ## Claims -/

/-- Claim C2 (code bug): the spec requires `_parse_dict` to be total over
structurally valid replies and to return one record per distinct
fingerprint, in particular for two or more entries.  The code rebinds the
loop variable (`datas = datas[_hash]`), so the second iteration indexes
the second fingerprint inside the *first entry* and raises `KeyError`:
here the reply `{'h1': {}, 'h2': {}}` crashes instead of producing two
records. -/
theorem c2_two_entries_keyerror :
    parse_dict [("h1", []), ("h2", [])] = .error (.keyError "h2") := by decide

/-- Claim C3 (counterexample): `get_infos` called with zero fingerprints
does not fail with any error — it returns the empty mapping (there is no
`EmptyRequest` exception in the module). -/
theorem c3_counterexample :
    get_infos [] (.reply "401 Unauthorized" .dother) = (false, .ok (.mapping [])) := by
  decide

/-- Claim C3 (amended): with zero fingerprints, or with only `None`
placeholders, `get_infos` logs an error and returns the empty mapping
without making the remote call; no exception is raised. -/
theorem c3_empty_returns_empty (movie_hash : List (Option String)) (remote : RemoteResult)
    (h : movie_hash.filterMap id = []) :
    get_infos movie_hash remote = (false, .ok (.mapping [])) := by
  cases movie_hash with
  | nil => rfl
  | cons a l =>
    unfold get_infos
    rw [h]
    simp

/-- Witness for `c3_empty_returns_empty` at a concrete all-`None` batch. -/
theorem c3_witness : get_infos [none, none] .sockTimeout = (false, .ok (.mapping [])) :=
  c3_empty_returns_empty [none, none] .sockTimeout (by decide)

/-- Claim C4 (code bug): on a `200 OK` reply whose data section is neither
a mapping nor a list, `get_infos` executes
`return InvalidResultOpenSutitlesError(...)` — the exception instance is
*returned* as an ordinary value, not raised, contradicting the spec's
`InvalidResultShape` signalling (the caller `get_files_infos` would then
crash iterating the exception object). -/
theorem c4_error_object_returned :
    get_infos [some "f"] (.reply "200 OK" .dother)
      = (true, .ok (.errObject "InvalidResultOpenSutitlesError")) := by decide

/-- Claim C5 (counterexample): on the insert operation a `401` status does
not raise the table's unauthorized error — the call returns `None`
(no exception at all). -/
theorem c5_counterexample :
    insert_movie_hash [[("imdbid", "tt1")]] (.reply "401 Unauthorized" (.ddict []))
      = ([[("imdbid", "1")]], true, .ok none) := by decide

/-- Claim C5 (amended): the status table applies to the lookup call only:
there a nonempty non-`200 OK` status raises the table error for its code
(or the generic error carrying the raw status), and `200 OK` raises
nothing.  The insert call instead raises `OpenSutitlesInvalidParam` when
`'408'` occurs in the status, returns the data on exactly `200 OK`, and
returns `None` (raising nothing) on every other status. -/
theorem c5_status_code_handling (status : String) (data : ReplyData) :
    (status ≠ "200 OK" → status ≠ "" →
      (get_infos [some "f"] (.reply status data)).2 = .error (status_error status))
    ∧ ((get_infos [some "f"] (.reply "200 OK" (.ddict []))).2 = .ok (.mapping []))
    ∧ (pyInStr "408" status = true →
      (insert_movie_hash [[("imdbid", "tt1")]] (.reply status data)).2.2
        = .error (.invalidParam "Invalid parameters"))
    ∧ (pyInStr "408" status = false → status = "200 OK" →
      (insert_movie_hash [[("imdbid", "tt1")]] (.reply status data)).2.2 = .ok (some data))
    ∧ (pyInStr "408" status = false → status ≠ "200 OK" →
      (insert_movie_hash [[("imdbid", "tt1")]] (.reply status data)).2.2 = .ok none) := by
  refine ⟨?_, ?_, ?_, ?_, ?_⟩
  · intro h1 h2
    simp [get_infos, h1, h2]
  · decide
  · intro h
    simp [insert_movie_hash, reformat_loop, assocGet, h]
  · intro h h2
    subst h2
    simp [insert_movie_hash, reformat_loop, assocGet, h]
  · intro h h2
    simp [insert_movie_hash, reformat_loop, assocGet, h, h2]

/-- Witness for `c5_status_code_handling`: a `401` lookup reply raises the
table's unauthorized error. -/
theorem c5_witness :
    (get_infos [some "f"] (.reply "401 Unauthorized" (.ddict []))).2
      = .error (status_error "401 Unauthorized") :=
  (c5_status_code_handling "401 Unauthorized" (.ddict [])).1 (by decide) (by decide)

/-- Claim C6 (counterexample): a record without `imdbid` makes
`insert_movie_hash` raise `OpenSutitlesInvalidParam("Key imdbid is
missing")` — not the distinct `MandatoryParameterMissing` class the claim
names (that class is only used for status code `405`). -/
theorem c6_counterexample :
    insert_movie_hash [[("moviehash", "abc")]] (.reply "200 OK" (.ddict []))
      = ([[("moviehash", "abc")]], false, .error (.invalidParam "Key imdbid is missing")) := by
  decide

/-- Claim C6 (amended): whenever some record lacks the `imdbid` key,
`insert_movie_hash` raises `OpenSutitlesInvalidParam("Key imdbid is
missing")`, and it does so before any remote interaction (no login and no
insert call). -/
theorem c6_missing_imdbid_raises (hashes : List Record) (remote : RemoteResult)
    (h : ∃ d ∈ hashes, assocGet d "imdbid" = none) :
    (insert_movie_hash hashes remote).2.1 = false ∧
    (insert_movie_hash hashes remote).2.2
      = .error (.invalidParam "Key imdbid is missing") := by
  have h2 := reformat_loop_error_of_missing hashes h
  unfold insert_movie_hash
  rw [h2]
  exact ⟨rfl, rfl⟩

/-- Witness for `c6_missing_imdbid_raises` at a concrete record list. -/
theorem c6_witness :
    (insert_movie_hash [[("foo", "x")]] .sockTimeout).2.1 = false ∧
    (insert_movie_hash [[("foo", "x")]] .sockTimeout).2.2
      = .error (.invalidParam "Key imdbid is missing") :=
  c6_missing_imdbid_raises [[("foo", "x")]] .sockTimeout (by decide)

/-- Claim C7 (counterexample): immediately after a successful login on a
fresh client the session is still *expired*: `register` replaces the
token but never sets `last_query_time`, so `is_token_expired` is still
true, contradicting the claim that validity holds right after login. -/
theorem c7_counterexample :
    is_token_expired (register fresh_session 0 (some "tok")) 0 = true := by decide

/-- Claim C7 (amended): the validity predicate (`is_token_expired`
negated) holds iff the token is present, the last query time is present,
and now minus that time is under 14 minutes; it is false right after
construction with no prior state; after a login it becomes true only once
the caller records the query time (as `get_infos` does right after
`register`), and it is false again 14 minutes after that with no
renewal. -/
theorem c7_token_validity (st : SessionSt) (now t : Nat) (tok : String) :
    ((is_token_expired st now = false) ↔
      ((∃ tk, st.token = some tk) ∧
        ∃ u, st.last_query_time = some u ∧ now - u < TOKEN_EXPIRATION))
    ∧ is_token_expired fresh_session now = true
    ∧ is_token_expired (set_query_time (register fresh_session now (some tok)) t) t = false
    ∧ is_token_expired (set_query_time (register fresh_session now (some tok)) t)
        (t + TOKEN_EXPIRATION) = true := by
  refine ⟨?_, rfl, ?_, ?_⟩
  · obtain ⟨tk, lq⟩ := st
    cases tk <;> cases lq <;> simp [is_token_expired, TOKEN_EXPIRATION]
    omega
  · simp [register, fresh_session, is_token_expired, set_query_time, TOKEN_EXPIRATION]
  · simp [register, fresh_session, is_token_expired, set_query_time, TOKEN_EXPIRATION]

/-- Claim C1 (counterexample): a batch of one fingerprintable file and one
too-small file does *not* yield an entry for both paths: the too-small
path (fingerprint `None`, filtered before the remote call and absent from
the reply mapping the result is keyed over) has no entry at all in the
result, instead of mapping to absent. -/
theorem c1_counterexample :
    get_files_infos (fun p => if p = "a.avi" then some "f1" else none)
        ["a.avi", "b.avi"] (.reply "200 OK" (.ddict [("f1", [("MovieHash", "f1")])]))
      = .ok [(some "a.avi", some [("movie_hash", .rstr "f1"), ("kind", .rnone)])] := by
  decide

/-- Claim C1 (amended): `get_files_infos` keys its result over the
fingerprints of the server reply only, mapping each one's original path
to its record; a path whose file was too small to fingerprint (hash
`None`) is dropped from the result entirely rather than mapped to
absent.  Shown for a batch of one fingerprintable and one
unfingerprintable path. -/
theorem c1_lookup_drops_unhashable (p1 p2 f : String) (h : p2 ≠ p1) :
    get_files_infos (fun p => if p = p1 then some f else none) [p1, p2]
        (.reply "200 OK" (.ddict [(f, [("MovieHash", f)])]))
      = .ok [(some p1, some [("movie_hash", .rstr f), ("kind", .rnone)])] := by
  simp [get_files_infos, get_infos, parse_dict, parse_dict_loop, dvar_subscript,
        parse_cell, parse_entry, flatten, record_key, pyDictInsert, assocGet, optRVal,
        Except.map, h]

/-- Witness for `c1_lookup_drops_unhashable` at two concrete paths. -/
theorem c1_witness :
    get_files_infos (fun p => if p = "x.mkv" then some "ab12" else none) ["x.mkv", "y.mkv"]
        (.reply "200 OK" (.ddict [("ab12", [("MovieHash", "ab12")])]))
      = .ok [(some "x.mkv", some [("movie_hash", .rstr "ab12"), ("kind", .rnone)])] :=
  c1_lookup_drops_unhashable "x.mkv" "y.mkv" "ab12" (by decide)

/-- Claim C8 (counterexample): an episode entry whose title has exactly one
double quote (two quote-delimited parts, hence fewer than three) does
*not* leave both title fields absent: `serie_title` is set from the part
after the quote before the `IndexError` on `parts[2]` is caught; and the
non-numeric season value `"x3"` is kept as the raw string, not made
absent. -/
theorem c8_counterexample :
    parse_entry "h" [("MovieKind", "episode"), ("MovieName", "A \"B"), ("SeriesSeason", "x3")]
      = .ok [("movie_hash", .rnone), ("kind", .rstr "episode"), ("serie_title", .rstr "B"),
             ("season_number", .rstr "x3"), ("episode_number", .rnone)] := by
  decide

/-- Claim C8 (amended): for an episode entry, a title with no double quote
leaves both title fields absent; a title with exactly one double quote
(two parts) sets `serie_title` to the stripped part after the quote and
leaves `episode_title` absent.  In both cases the record is still
produced: the season number is coerced to an integer when the value is a
numeric string, stays Python `None` when missing, and stays the raw
string when non-numeric (`numField`); the missing `SeriesEpisode` is
`None`. -/
theorem c8_episode_title_fallback (title ss : String) :
    ((pySplitChar title '\"').length ≤ 1 →
      parse_entry "h0" [("MovieKind", "episode"), ("MovieName", title), ("SeriesSeason", ss)]
        = .ok [("movie_hash", .rnone), ("kind", .rstr "episode"),
               ("season_number", numField (some ss)), ("episode_number", .rnone)])
    ∧ (∀ a b, pySplitChar title '\"' = [a, b] →
      parse_entry "h0" [("MovieKind", "episode"), ("MovieName", title), ("SeriesSeason", ss)]
        = .ok [("movie_hash", .rnone), ("kind", .rstr "episode"),
               ("serie_title", .rstr (pyStrip b)),
               ("season_number", numField (some ss)), ("episode_number", .rnone)])
    ∧ (∀ n, pyInt ss = some n → numField (some ss) = .rint n)
    ∧ (pyInt ss = none → numField (some ss) = .rstr ss) := by
  refine ⟨?_, ?_, ?_, ?_⟩
  · intro hq
    have hnone : (pySplitChar title '\"')[1]? = none := List.getElem?_eq_none hq
    simp [parse_entry, assocGet, pyDictInsert, optRVal, numField, hnone]
  · intro a b hab
    simp [parse_entry, assocGet, pyDictInsert, optRVal, numField, hab]
  · intro n hn
    simp [numField, hn]
  · intro hn
    simp [numField, hn]

/-- Witness for `c8_episode_title_fallback`: quoteless title, numeric
season. -/
theorem c8_witness :
    parse_entry "h0" [("MovieKind", "episode"), ("MovieName", "Foo"), ("SeriesSeason", "3")]
      = .ok [("movie_hash", .rnone), ("kind", .rstr "episode"),
             ("season_number", numField (some "3")), ("episode_number", .rnone)] :=
  (c8_episode_title_fallback "Foo" "3").1 (by decide)

lemma mask64_nonneg (a : Int) : 0 ≤ mask64 a := Int.emod_nonneg a (by norm_num)

lemma mask64_lt (a : Int) : mask64 a < 2 ^ 64 := Int.emod_lt_of_pos a (by norm_num)

lemma foldl_mask_bound (g : Nat → Int) :
    ∀ (l : List Nat) (a : Int), l ≠ [] →
      0 ≤ l.foldl (fun b i => mask64 (b + g i)) a ∧
        l.foldl (fun b i => mask64 (b + g i)) a < 2 ^ 64 := by
  intro l
  induction l with
  | nil => intro a hne; exact absurd rfl hne
  | cons x xs ih =>
    intro a _
    rw [List.foldl_cons]
    by_cases hx : xs = []
    · subst hx
      rw [List.foldl_nil]
      exact ⟨mask64_nonneg _, mask64_lt _⟩
    · exact ih _ hx

lemma natToHex_ne_nil (n : Nat) : natToHex n ≠ [] := by
  unfold natToHex
  by_cases h : n < 16 <;> simp [h]

lemma natToHex_length_le : ∀ k n : Nat, 0 < k → n < 16 ^ k → (natToHex n).length ≤ k := by
  intro k
  induction k with
  | zero => intro n h; omega
  | succ k ih =>
    intro n _ hn
    unfold natToHex
    by_cases h : n < 16
    · rw [dif_pos h]
      simp
    · rw [dif_neg h]
      rw [List.length_append]
      have h16 : (16 : Nat) ≤ n := le_of_not_lt h
      have hk : 0 < k := by
        rcases Nat.eq_zero_or_pos k with hk0 | hk0
        · subst hk0
          rw [pow_one] at hn
          omega
        · exact hk0
      have hdiv : n / 16 < 16 ^ k := by
        have hlt : n < 16 * 16 ^ k := by
          calc n < 16 ^ (k + 1) := hn
          _ = 16 * 16 ^ k := by rw [pow_succ, mul_comm]
        exact Nat.div_lt_of_lt_mul hlt
      have := ih (n / 16) hk hdiv
      simp only [List.length_singleton]
      omega

lemma digitChar_hex : ∀ m : Nat, m < 16 → is_hex_lower (Nat.digitChar m) = true := by decide

lemma natToHex_chars (n : Nat) : ∀ c ∈ natToHex n, is_hex_lower c = true := by
  induction n using Nat.strong_induction_on with
  | _ n ih =>
    intro c hc
    unfold natToHex at hc
    by_cases h : n < 16
    · rw [dif_pos h] at hc
      rw [List.mem_singleton] at hc
      subst hc
      exact digitChar_hex n h
    · rw [dif_neg h] at hc
      rw [List.mem_append] at hc
      rcases hc with hc | hc
      · exact ih (n / 16) (Nat.div_lt_self (by omega) (by omega)) c hc
      · rw [List.mem_singleton] at hc
        subst hc
        exact digitChar_hex _ (Nat.mod_lt _ (by omega))

lemma pad016x_spec (n : Nat) (h : n < 2 ^ 64) :
    (pad016x n).length = 16 ∧ (pad016x n).data.all is_hex_lower = true := by
  have h16 : n < 16 ^ 16 := by
    have hpow : (16 : Nat) ^ 16 = 2 ^ 64 := by norm_num
    omega
  have hlen : (natToHex n).length ≤ 16 := natToHex_length_le 16 n (by norm_num) h16
  constructor
  · show (List.replicate (16 - (natToHex n).length) '0' ++ natToHex n).length = 16
    rw [List.length_append, List.length_replicate]
    omega
  · rw [List.all_eq_true]
    intro c hc
    have hc2 : c ∈ List.replicate (16 - (natToHex n).length) '0' ++ natToHex n := hc
    rw [List.mem_append] at hc2
    rcases hc2 with hc2 | hc2
    · rw [List.eq_of_mem_replicate hc2]
      decide
    · exact natToHex_chars n c hc2

/-- Claim C9 (confirmed): for every file of at least 131072 bytes,
`get_hash` returns a fingerprint: the size-seeded accumulator is reduced
`% 2^64` after every eight-byte addition, so the final value is below
`2^64` and `%016x` renders it as exactly 16 lowercase hexadecimal
characters, left-zero-padded. -/
theorem c9_hash_sixteen_lower_hex (file : List Nat) (h : 131072 ≤ file.length) :
    ∃ n : Nat, n < 2 ^ 64 ∧ get_hash file = some (pad016x n) ∧
      (pad016x n).length = 16 ∧ (pad016x n).data.all is_hex_lower = true := by
  have hnot : ¬ file.length < 65536 * 2 := by omega
  have hr : (List.range 8192 : List Nat) ≠ [] := by
    simp [List.range_eq_nil]
  have hb :
      0 ≤ (List.range 8192).foldl
        (fun a i => mask64 (a + read_le_word file (max 0 (file.length - 65536) + 8 * i)))
        ((List.range 8192).foldl
          (fun a i => mask64 (a + read_le_word file (8 * i))) (file.length : Int)) ∧
      (List.range 8192).foldl
        (fun a i => mask64 (a + read_le_word file (max 0 (file.length - 65536) + 8 * i)))
        ((List.range 8192).foldl
          (fun a i => mask64 (a + read_le_word file (8 * i))) (file.length : Int)) < 2 ^ 64 :=
    foldl_mask_bound
      (fun i => read_le_word file (max 0 (file.length - 65536) + 8 * i))
      (List.range 8192)
      ((List.range 8192).foldl
        (fun a i => mask64 (a + read_le_word file (8 * i))) (file.length : Int))
      hr
  refine ⟨(((List.range 8192).foldl
      (fun a i => mask64 (a + read_le_word file (max 0 (file.length - 65536) + 8 * i)))
      ((List.range 8192).foldl
        (fun a i => mask64 (a + read_le_word file (8 * i))) (file.length : Int)))).toNat,
    ?_, ?_, ?_⟩
  · omega
  · unfold get_hash
    rw [if_neg hnot]
  · exact pad016x_spec _ (by omega)

/-- Witness for `c9_hash_sixteen_lower_hex` on a 131072-byte zero file. -/
theorem c9_witness :
    ((get_hash (List.replicate 131072 0)).getD "").length = 16 ∧
    ((get_hash (List.replicate 131072 0)).getD "").data.all is_hex_lower = true := by
  obtain ⟨n, _, hg, hl, hc⟩ := c9_hash_sixteen_lower_hex (List.replicate 131072 0)
    (by rw [List.length_replicate])
  rw [hg]
  exact ⟨hl, hc⟩

/-- Claim C10 (confirmed): `insert_movie_hash` mutates the caller's
records in place: when every record carries `imdbid`, the caller-visible
list after the call — whatever the remote outcome, including failures —
is the original list with every occurrence of `tt` removed from each
`imdbid` value (Python `replace('tt', '')`), and lookups of any other key
are unchanged. -/
theorem c10_insert_mutates_imdbids (hashes : List Record) (remote : RemoteResult)
    (h : ∀ d ∈ hashes, (assocGet d "imdbid").isSome = true) :
    (insert_movie_hash hashes remote).1
      = hashes.map (fun d => pyDictInsert d "imdbid"
          (strip_tt ((assocGet d "imdbid").getD "")))
    ∧ ∀ (d : Record) (k : String), k ≠ "imdbid" →
        assocGet (pyDictInsert d "imdbid" (strip_tt ((assocGet d "imdbid").getD ""))) k
          = assocGet d k := by
  constructor
  · rw [insert_movie_hash_fst, reformat_loop_all_present hashes h]
  · intro d k hk
    exact assocGet_pyDictInsert_ne d "imdbid" k _ hk

/-- Witness for `c10_insert_mutates_imdbids`: a timed-out insert still
leaves the caller's record with the `tt` prefix stripped. -/
theorem c10_witness :
    (insert_movie_hash [[("imdbid", "tt0123"), ("moviebytesize", "500")]] .sockTimeout).1
      = [[("imdbid", "0123"), ("moviebytesize", "500")]] := by
  have h := (c10_insert_mutates_imdbids [[("imdbid", "tt0123"), ("moviebytesize", "500")]]
    .sockTimeout (by decide)).1
  rw [h]
  decide
